import Mathlib

/-!
Verification of the AI-orchestration layer of the `postul` server
(`src/server/services/ai_service.py`, `src/server/dependencies.py`,
`src/server/routers/ideas.py`, `src/server/routers/projects.py`).

Python strings are modelled as Lean `String`s; Python slicing `s[:n]`,
`str.strip()` and truthiness are given explicit executable counterparts.
The generative-text provider is an external collaborator: each orchestrator
takes the provider outcome (or a function from the built message list to an
outcome) as a parameter, success carrying the parsed value, failure standing
for any exception caught by the surrounding `try/except`.
-/

namespace Postul

/-- Python `s[:n]` for a nonnegative bound: the first `n` code points. -/
def pySlice (s : String) (n : Nat) : String := String.mk (s.data.take n)

/-- Python `s.strip()`: remove leading and trailing whitespace. -/
def pyStrip (s : String) : String :=
  String.mk (((s.data.dropWhile Char.isWhitespace).reverse.dropWhile
      Char.isWhitespace).reverse)

/-- Python truthiness of a string: nonempty. -/
def pyTruthy (s : String) : Bool := !(s == "")

/-- Python truthiness of an `Optional[str]`: present and nonempty. -/
def pyTruthyOpt : Option String → Bool
  | none => false
  | some s => pyTruthy s

/-- Python `l[:n]` for an arbitrary `int` bound `n`:
nonnegative `n` keeps the first `n` elements, negative `n` drops the
last `-n` elements. -/
def pyListSlice {α : Type} (l : List α) (n : Int) : List α :=
  if 0 ≤ n then l.take n.toNat
  else l.take (l.length - min (-n).toNat l.length)

/-- Outcome of one provider call, as seen by the `try/except` wrapper:
either the parsed/validated value, or any exception (network, timeout,
schema rejection, unparseable output). -/
inductive ProviderOutcome (α : Type) : Type
  | ok (a : α) : ProviderOutcome α
  | failed : ProviderOutcome α

/-- A research source, `schema.Source`-shaped: `{title, url}`. -/
structure Source where
  title : String
  url : String
  deriving DecidableEq, Repr

/-- The schema `schema.ExtendedIdeaAnalysis`: SWOT-style free text, actionable items,
priority, the two scores and cited sources.  Scores are modelled as
rationals. -/
structure ExtendedIdeaAnalysis where
  problem_statement : String
  summary : String
  strengths : String
  weaknesses : String
  opportunities : String
  threats : String
  actionable_items : List String
  validation_priority : String
  saturation_score : ℚ
  juicy_score : ℚ
  sources : List Source
  deriving DecidableEq, Repr

/-- Modelled from the spec: the schema constraints that `schema.py`
(referenced from `src` but not itself under `src`) enforces on every
analysis object — non-empty required strings, scores within `[0, 10]`,
priority enum membership, at most 4 sources. -/
def validAnalysis (a : ExtendedIdeaAnalysis) : Prop :=
  a.problem_statement ≠ "" ∧ a.summary ≠ "" ∧ a.strengths ≠ "" ∧
  a.weaknesses ≠ "" ∧ a.opportunities ≠ "" ∧ a.threats ≠ "" ∧
  0 ≤ a.saturation_score ∧ a.saturation_score ≤ 10 ∧
  0 ≤ a.juicy_score ∧ a.juicy_score ≤ 10 ∧
  a.validation_priority ∈ (["High", "Medium", "Low"] : List String) ∧
  a.sources.length ≤ 4

instance (a : ExtendedIdeaAnalysis) : Decidable (validAnalysis a) := by
  unfold validAnalysis; infer_instance

/-- The fallback `AIService._get_fallback_analysis`: the deterministic substitute
returned when the provider call fails. -/
def _get_fallback_analysis (transcribed_text : String) : ExtendedIdeaAnalysis where
  problem_statement := "Unable to generate problem statement. Please try again."
  summary := "Analysis for: " ++ pySlice transcribed_text 200 ++ "..."
  strengths := "Analysis temporarily unavailable"
  weaknesses := "Analysis temporarily unavailable"
  opportunities := "Analysis temporarily unavailable"
  threats := "Analysis temporarily unavailable"
  actionable_items :=
    ["Review and refine your idea statement",
     "Try submitting your idea again",
     "Consider breaking down your idea into smaller components"]
  validation_priority := "Medium"
  saturation_score := 5
  juicy_score := 5
  sources := []

/-- The orchestrator `AIService.analyze_idea`: request a structured analysis from the
provider; on success return the parsed object, on any exception return the
fallback analysis. -/
def analyze_idea (provider : ProviderOutcome ExtendedIdeaAnalysis)
    (transcribed_text : String) : ExtendedIdeaAnalysis :=
  match provider with
  | .ok a => a
  | .failed => _get_fallback_analysis transcribed_text

/-- The error taxonomy of the analyze boundary: caller error vs provider
failure. -/
inductive AnalyzeError : Type
  | invalidInput : AnalyzeError
  | generationFailed : AnalyzeError
  deriving DecidableEq, Repr

/-- Modelled from the spec: the request validation of the analyze boundary
(`schema.IdeaAnalysisRequest`, in `schema.py`, which is referenced from
`src` but not itself under `src`) rejects empty idea text as
`InvalidInput` before the service is invoked. -/
def validateIdeaText (t : String) : Except AnalyzeError Unit :=
  if t = "" then .error .invalidInput else .ok ()

/-- The analyze operation at the routing boundary: validate the input,
then run `analyze_idea` (which never raises for provider failures). -/
def analyze_boundary (provider : ProviderOutcome ExtendedIdeaAnalysis)
    (t : String) : Except AnalyzeError ExtendedIdeaAnalysis := do
  let _ ← validateIdeaText t
  pure (analyze_idea provider t)

/-- One provider-bound message: a `{"role": .., "content": ..}` pair. -/
structure Msg where
  role : String
  content : String
  deriving DecidableEq, Repr

/-- One entry of the caller-supplied `conversation_history` list, of
arbitrary run-time shape: a dict (whose `"role"`/`"content"` keys may each
be absent) or any non-dict value. -/
inductive HistEntry : Type
  | dict (role : Option String) (content : Option String) : HistEntry
  | nonDict : HistEntry
  deriving DecidableEq, Repr

/-- The history loop of `AIService.tiki_taka_conversation`: for each entry,
a dict is appended with `msg.get("role", "user")` and
`msg.get("content", "")`; anything else is skipped. -/
def appendHistory (messages : List Msg) : List HistEntry → List Msg
  | [] => messages
  | .dict r c :: rest =>
      appendHistory (messages ++ [⟨r.getD "user", c.getD ""⟩]) rest
  | .nonDict :: rest => appendHistory messages rest

/-- The advisor-persona system prompt of `tiki_taka_conversation`. -/
def tikiTakaSystemPrompt : String :=
  "You are a thoughtful startup advisor and innovation consultant. Your role is to help users think through their startup ideas through Socratic questioning and gentle guidance.\n\nKey principles:\n- Ask thoughtful questions that help users discover insights themselves\n- Don\x27t provide direct answers or analysis - guide them to think deeper\n- Be encouraging and supportive, but also help them identify potential blind spots\n- Focus on problem validation, market understanding, and critical assumptions\n- Keep responses concise (2-4 sentences) - this is a back-and-forth conversation\n- Use a conversational, friendly tone\n- Help users explore different angles of their idea\n- If they\x27re stuck, offer gentle prompts or suggest areas to consider\n\nYour goal is to help users think critically about their idea, not to analyze it for them."

/-- Message-list construction of `AIService.tiki_taka_conversation`:
system prompt, then — when `idea_context` is truthy and the history is
`None` or empty — a synthetic user turn injecting the idea context, then
the (duck-typed) history entries, then the current user message. -/
def tikiTakaMessages (transcribed_text : String)
    (conversation_history : Option (List HistEntry))
    (idea_context : Option String) : List Msg :=
  let messages : List Msg := [⟨"system", tikiTakaSystemPrompt⟩]
  let histFalsy : Bool :=
    match conversation_history with
    | none => true
    | some l => l.isEmpty
  let messages :=
    if pyTruthyOpt idea_context && histFalsy then
      messages ++ [⟨"user", "I have an idea: " ++ (idea_context.getD "")⟩]
    else messages
  let messages :=
    match conversation_history with
    | none => messages
    | some l => if l.isEmpty then messages else appendHistory messages l
  messages ++ [⟨"user", transcribed_text⟩]

/-- The fixed clarifying question returned by `tiki_taka_conversation`
when the chat-completion call fails. -/
def tikiTakaFallbackReply : String :=
  "That\x27s an interesting thought! Can you tell me more about what problem you\x27re trying to solve with this idea?"

/-- The orchestrator `AIService.tiki_taka_conversation`: build the messages, call the chat
provider on them; on success return the stripped reply, on any exception
return the fixed fallback reply. -/
def tiki_taka_conversation (provider : List Msg → ProviderOutcome String)
    (transcribed_text : String)
    (conversation_history : Option (List HistEntry))
    (idea_context : Option String) : String :=
  match provider (tikiTakaMessages transcribed_text conversation_history idea_context) with
  | .ok reply => pyStrip reply
  | .failed => tikiTakaFallbackReply

/-- One turn of a conversation at the `converse` boundary. -/
structure Turn where
  role : String
  content : String
  deriving DecidableEq, Repr

/-- A boundary `Turn` encoded as the dict the service receives. -/
def Turn.toHistEntry (t : Turn) : HistEntry := .dict (some t.role) (some t.content)

/-- Modelled from the spec: the `converse` routing boundary
(`respond(transcribed_text, history, idea_context)`), whose router is not
under `src`: it obtains the advisor reply from
`tiki_taka_conversation` and returns the reply together with
`history + [user_turn, advisor_turn]`. -/
def respond (provider : List Msg → ProviderOutcome String)
    (transcribed_text : String) (history : List Turn)
    (idea_context : Option String) : String × List Turn :=
  let reply := tiki_taka_conversation provider transcribed_text
      (some (history.map Turn.toHistEntry)) idea_context
  (reply, history ++ [⟨"user", transcribed_text⟩, ⟨"advisor", reply⟩])

/-- The record `ProjectDetails`: the structured-output schema declared inside
`AIService.generate_project_details`. -/
structure ProjectDetails where
  name : String
  description : String
  deriving DecidableEq, Repr

/-- The fallback dict of `generate_project_details`:
`name = transcribed_text[:50].strip() or "New Project"`,
`description = transcribed_text[:500] or "A new project idea."`. -/
def projectDetailsFallback (transcribed_text : String) : ProjectDetails where
  name :=
    let s := pyStrip (pySlice transcribed_text 50)
    if s = "" then "New Project" else s
  description :=
    let s := pySlice transcribed_text 500
    if s = "" then "A new project idea." else s

/-- The run-time value returned by `AIService.generate_project_details`:
a parsed pydantic `ProjectDetails` object on success, but a plain dict on
the fallback path. -/
inductive PyDetailsValue : Type
  | model (p : ProjectDetails) : PyDetailsValue
  | dict (entries : List (String × String)) : PyDetailsValue
  deriving DecidableEq, Repr

/-- The generator `AIService.generate_project_details`: on success the parsed object,
on any exception the fallback dict. -/
def generate_project_details (provider : ProviderOutcome ProjectDetails)
    (transcribed_text : String) : PyDetailsValue :=
  match provider with
  | .ok p => .model p
  | .failed =>
      .dict [("name", (projectDetailsFallback transcribed_text).name),
             ("description", (projectDetailsFallback transcribed_text).description)]

/-- Python attribute access `v.name` / `v.description` on the value
returned by the service: defined on the pydantic model, an
`AttributeError` (`none`) on a plain dict. -/
def pyGetAttr (v : PyDetailsValue) (attr : String) : Option String :=
  match v with
  | .model p =>
      if attr = "name" then some p.name
      else if attr = "description" then some p.description
      else none
  | .dict _ => none

/-- The `/generate-details` route of `src/server/routers/projects.py`:
builds `ProjectDetailsResponse(name=details.name, description=details.description)`;
any exception inside the `try` block becomes an HTTP 500. -/
def generate_details_endpoint (provider : ProviderOutcome ProjectDetails)
    (transcribed_text : String) : Except Nat ProjectDetails :=
  match pyGetAttr (generate_project_details provider transcribed_text) "name",
        pyGetAttr (generate_project_details provider transcribed_text) "description" with
  | some n, some d => .ok ⟨n, d⟩
  | _, _ => .error 500

/-- One survey post: `{"id": .., "text": ..}`. -/
structure SurveyPost where
  id : String
  text : String
  deriving DecidableEq, Repr

/-- The `idea_preview` of `_get_fallback_survey_posts`:
`idea_context[:100] + "..." if len(idea_context) > 100 else idea_context`. -/
def idea_preview (idea_context : String) : String :=
  if idea_context.length > 100 then pySlice idea_context 100 ++ "..."
  else idea_context

/-- The fallback `AIService._get_fallback_survey_posts`: the three template posts, each
interpolating `idea_preview`, truncated by `fallback_posts[:count]`. -/
def _get_fallback_survey_posts (idea_context : String) (count : Int) :
    List SurveyPost :=
  let fallback_posts : List SurveyPost :=
    [⟨"1", "What do you think about " ++ idea_preview idea_context ++
        "? Would love your thoughts! 🚀"⟩,
     ⟨"2", "I\x27m exploring " ++ idea_preview idea_context ++
        "... What\x27s your take? 💭"⟩,
     ⟨"3", "Quick poll: " ++ idea_preview idea_context ++
        "... Thoughts? 🤔"⟩]
  pyListSlice fallback_posts count

/-- The resolver `dependencies.get_user_id_or_anonymous`: an authenticated (truthy)
user id passes through; every anonymous caller gets the constant
`"anonymous"`. -/
def get_user_id_or_anonymous (user_id : Option String) : String :=
  match user_id with
  | some uid => if pyTruthy uid then uid else "anonymous"
  | none => "anonymous"

/-- A persisted idea row, with the columns the ownership filter uses. -/
structure IdeaRow where
  id : Nat
  user_id : String
  transcribed_text : String
  deriving DecidableEq, Repr

/-- The insert performed by the `/analyze` route of
`src/server/routers/ideas.py`: the new row is owned by
`get_user_id_or_anonymous(optional_user_id)`. -/
def analyze_insert (db : List IdeaRow) (optional_user_id : Option String)
    (transcribed_text : String) (new_id : Nat) : List IdeaRow :=
  db ++ [⟨new_id, get_user_id_or_anonymous optional_user_id, transcribed_text⟩]

/-- The `GET /{idea_id}` route of `src/server/routers/ideas.py`: select the
row whose `id` and `user_id` both match; 404 when none does. -/
def get_idea (db : List IdeaRow) (idea_id : Nat)
    (optional_user_id : Option String) : Except Nat IdeaRow :=
  let user_id := get_user_id_or_anonymous optional_user_id
  match db.find? (fun r => r.id == idea_id && r.user_id == user_id) with
  | some row => .ok row
  | none => .error 404

/-- The per-entry translation the history loop performs: a dict becomes a
message with defaults for missing keys, anything else contributes
nothing. -/
def histMsgOf : HistEntry → Option Msg
  | .dict r c => some ⟨r.getD "user", c.getD ""⟩
  | .nonDict => none

/-- The messages a (possibly absent) history contributes. -/
def histMsgs (conversation_history : Option (List HistEntry)) : List Msg :=
  (conversation_history.getD []).filterMap histMsgOf

/-! ## Theorems -/

/-- The history loop only ever appends: it equals the incoming messages
followed by the per-entry translation of the history. -/
theorem appendHistory_eq (messages : List Msg) (entries : List HistEntry) :
    appendHistory messages entries = messages ++ entries.filterMap histMsgOf := by
  induction entries generalizing messages with
  | nil => simp [appendHistory]
  | cons e rest ih =>
      cases e with
      | dict r c => simp [appendHistory, ih, histMsgOf]
      | nonDict => simp [appendHistory, ih, histMsgOf]

/-- The fallback summary always starts with its fixed prefix, so it is
never the empty string. -/
theorem fallback_summary_ne_empty (t : String) :
    "Analysis for: " ++ pySlice t 200 ++ "..." ≠ "" := by
  intro h
  rw [String.ext_iff] at h
  simp [String.data_append, pySlice] at h

/-- The fallback analysis satisfies every schema constraint, whatever the
input text. -/
theorem fallback_analysis_valid (t : String) :
    validAnalysis (_get_fallback_analysis t) := by
  unfold validAnalysis
  refine ⟨?_, ?_, ?_, ?_, ?_, ?_, ?_, ?_, ?_, ?_, ?_, ?_⟩ <;>
    simp only [_get_fallback_analysis]
  · decide
  · exact fallback_summary_ne_empty t
  · decide
  · decide
  · decide
  · decide
  · norm_num
  · norm_num
  · norm_num
  · norm_num
  · decide
  · decide

/-- C1: empty idea text is rejected at the analyze boundary as
`InvalidInput` — an error distinct from provider failure, raised for every
provider outcome, hence not masked by the fallback — while for non-empty
text the operation always returns a value: no provider failure propagates
past the boundary. -/
theorem analyze_boundary_error_contract
    (p : ProviderOutcome ExtendedIdeaAnalysis) (t : String) :
    (t = "" → analyze_boundary p t = .error .invalidInput ∧
      AnalyzeError.invalidInput ≠ AnalyzeError.generationFailed) ∧
    (t ≠ "" → ∃ a, analyze_boundary p t = .ok a) := by
  constructor
  · intro ht
    subst ht
    exact ⟨rfl, by decide⟩
  · intro ht
    exact ⟨analyze_idea p t, by simp [analyze_boundary, validateIdeaText, ht]⟩

/-- Witness for `analyze_boundary_error_contract` at `t = ""` (with a
failing provider, showing the fallback does not mask the error) and at
`t = "hi"`. -/
theorem analyze_boundary_error_contract_witness :
    (analyze_boundary .failed "" = .error .invalidInput ∧
      AnalyzeError.invalidInput ≠ AnalyzeError.generationFailed) ∧
    ∃ a, analyze_boundary .failed "hi" = .ok a :=
  ⟨(analyze_boundary_error_contract .failed "").1 rfl,
   (analyze_boundary_error_contract .failed "hi").2 (by decide)⟩

/-- C2: on provider failure `analyze_idea` returns exactly the literal
fallback analysis: the apologetic placeholder literals in each free-text
field, exactly 3 generic actionable items, priority `Medium`, both scores
`5.0`, and no sources. -/
theorem analyze_idea_fallback_literal (t : String) :
    analyze_idea .failed t = _get_fallback_analysis t ∧
    (analyze_idea .failed t).actionable_items.length = 3 ∧
    (analyze_idea .failed t).validation_priority = "Medium" ∧
    (analyze_idea .failed t).saturation_score = 5 ∧
    (analyze_idea .failed t).juicy_score = 5 ∧
    (analyze_idea .failed t).sources = [] ∧
    (analyze_idea .failed t).problem_statement =
      "Unable to generate problem statement. Please try again." ∧
    (analyze_idea .failed t).strengths = "Analysis temporarily unavailable" ∧
    (analyze_idea .failed t).weaknesses = "Analysis temporarily unavailable" ∧
    (analyze_idea .failed t).opportunities = "Analysis temporarily unavailable" ∧
    (analyze_idea .failed t).threats = "Analysis temporarily unavailable" ∧
    (analyze_idea .failed t).summary = "Analysis for: " ++ pySlice t 200 ++ "..." :=
  ⟨rfl, rfl, rfl, rfl, rfl, rfl, rfl, rfl, rfl, rfl, rfl, rfl⟩

/-- C3: for non-empty idea text, on the success path (where the
structured-output client only accepts schema-conformant objects) and on
the fallback path alike, the analysis returned by `analyze_idea` satisfies
every schema constraint. -/
theorem analyze_idea_schema_invariant
    (p : ProviderOutcome ExtendedIdeaAnalysis) (t : String)
    (hp : ∀ a, p = .ok a → validAnalysis a) (_ht : t ≠ "") :
    validAnalysis (analyze_idea p t) := by
  cases p with
  | ok a => exact hp a rfl
  | failed => exact fallback_analysis_valid t

/-- Witness for `analyze_idea_schema_invariant` at a failing provider and
`t = "x"`. -/
theorem analyze_idea_schema_invariant_witness :
    (∀ a, (ProviderOutcome.failed : ProviderOutcome ExtendedIdeaAnalysis) =
      .ok a → validAnalysis a) ∧
    ("x" : String) ≠ "" ∧
    validAnalysis (analyze_idea .failed "x") := by
  have h1 : ∀ a, (ProviderOutcome.failed : ProviderOutcome ExtendedIdeaAnalysis) =
      .ok a → validAnalysis a := by
    intro a h
    exact ProviderOutcome.noConfusion h
  refine ⟨h1, by decide, ?_⟩
  exact analyze_idea_schema_invariant .failed "x" h1 (by decide)

/-- C4: the conversation operation is append-only — the updated history
has length `len(H) + 2`, keeps `H` unchanged as its prefix, and ends with
the new user turn followed by the new advisor turn; when the provider
fails, the fallback reply is the appended advisor turn. -/
theorem respond_append_only (provider : List Msg → ProviderOutcome String)
    (text : String) (history : List Turn) (ctx : Option String) :
    (respond provider text history ctx).2.length = history.length + 2 ∧
    (respond provider text history ctx).2.take history.length = history ∧
    (respond provider text history ctx).2.drop history.length =
      [⟨"user", text⟩, ⟨"advisor", (respond provider text history ctx).1⟩] ∧
    (provider (tikiTakaMessages text (some (history.map Turn.toHistEntry)) ctx) =
        .failed →
      (respond provider text history ctx).1 = tikiTakaFallbackReply) := by
  refine ⟨?_, ?_, ?_, ?_⟩
  · simp [respond]
  · exact List.take_left history
      [⟨"user", text⟩, ⟨"advisor", (respond provider text history ctx).1⟩]
  · exact List.drop_left history
      [⟨"user", text⟩, ⟨"advisor", (respond provider text history ctx).1⟩]
  · intro hfail
    simp [respond, tiki_taka_conversation, hfail]

/-- Witness for `respond_append_only` with an always-failing provider, a
one-turn history and no idea context. -/
theorem respond_append_only_witness :
    (respond (fun _ => .failed) "go" [⟨"user", "a"⟩] none).2.length = 3 ∧
    (respond (fun _ => .failed) "go" [⟨"user", "a"⟩] none).2.take 1 =
      [⟨"user", "a"⟩] ∧
    (respond (fun _ => .failed) "go" [⟨"user", "a"⟩] none).1 =
      tikiTakaFallbackReply := by
  have h := respond_append_only (fun _ => .failed) "go" [⟨"user", "a"⟩] none
  exact ⟨h.1, h.2.1, h.2.2.2 rfl⟩

/-- C5: the ownership filter does not distinguish two distinct anonymous
callers — both resolve to the constant user id `"anonymous"`, so a row
created by one anonymous caller is retrieved, not rejected, when the other
anonymous caller requests it. -/
theorem anonymous_callers_share_rows :
    get_user_id_or_anonymous none = "anonymous" ∧
    get_idea (analyze_insert [] none "my idea" 1) 1 none =
      .ok ⟨1, "anonymous", "my idea"⟩ := by
  exact ⟨rfl, rfl⟩

/-- C6: on provider failure `generate_project_details` does compute the
fallback (a plain dict), but the `/generate-details` route reads
`details.name` / `details.description` as attributes, which fails on a
dict, so the endpoint answers HTTP 500 instead of a `ProjectDetails`
response; only the success path (a parsed pydantic object) works. -/
theorem generate_details_fallback_500 :
    generate_project_details .failed "a marketplace for renting power tools" =
      .dict [("name", "a marketplace for renting power tools"),
             ("description", "a marketplace for renting power tools")] ∧
    generate_details_endpoint .failed "a marketplace for renting power tools" =
      .error 500 ∧
    generate_details_endpoint
        (.ok ⟨"Tool Share", "A neighborhood tool rental marketplace."⟩)
        "a marketplace for renting power tools" =
      .ok ⟨"Tool Share", "A neighborhood tool rental marketplace."⟩ := by
  refine ⟨by decide, rfl, rfl⟩

/-- C7 counterexample: whitespace-only input is empty after trimming, and
does get the placeholder name, but its description is the whitespace
itself, not the placeholder sentence — the description default only fires
on the empty string, because the code applies no trimming there. -/
theorem project_fallback_whitespace_counterexample :
    pyStrip " " = "" ∧
    (projectDetailsFallback " ").name = "New Project" ∧
    (projectDetailsFallback " ").description = " " ∧
    (projectDetailsFallback " ").description ≠ "A new project idea." := by
  refine ⟨by decide, by decide, by decide, by decide⟩

/-- C7 (amended): the fallback name is the trimmed 50-character truncation
of the idea text, defaulting to "New Project" when that trimmed truncation
is empty; the fallback description is the untrimmed 500-character
truncation, defaulting to "A new project idea." only when the input is the
empty string — so only the empty string yields both placeholders. -/
theorem project_fallback_characterization (t : String) :
    (pyStrip (pySlice t 50) = "" →
      (projectDetailsFallback t).name = "New Project") ∧
    (pyStrip (pySlice t 50) ≠ "" →
      (projectDetailsFallback t).name = pyStrip (pySlice t 50)) ∧
    (t ≠ "" → (projectDetailsFallback t).description = pySlice t 500) ∧
    (t = "" → (projectDetailsFallback t).name = "New Project" ∧
      (projectDetailsFallback t).description = "A new project idea.") := by
  refine ⟨?_, ?_, ?_, ?_⟩
  · intro hs
    simp [projectDetailsFallback, hs]
  · intro hs
    simp [projectDetailsFallback, hs]
  · intro ht
    have hne : pySlice t 500 ≠ "" := by
      intro hEq
      apply ht
      have h1 : t.data.take 500 = ([] : List Char) := congrArg String.data hEq
      rw [List.take_eq_nil_iff] at h1
      rcases h1 with h1 | h1
      · exact absurd h1 (by norm_num)
      · exact String.ext h1
    simp [projectDetailsFallback, hne]
  · intro ht
    subst ht
    exact ⟨by decide, by decide⟩

/-- Witness for `project_fallback_characterization` at `"hello"` and at
the empty string. -/
theorem project_fallback_characterization_witness :
    pyStrip (pySlice "hello" 50) ≠ "" ∧
    (projectDetailsFallback "hello").name = pyStrip (pySlice "hello" 50) ∧
    (projectDetailsFallback "hello").description = pySlice "hello" 500 ∧
    ((projectDetailsFallback "").name = "New Project" ∧
      (projectDetailsFallback "").description = "A new project idea.") := by
  have h1 := project_fallback_characterization "hello"
  have h2 := project_fallback_characterization ""
  exact ⟨by decide, h1.2.1 (by decide), h1.2.2.1 (by decide), h2.2.2.2 rfl⟩

/-- C8: on provider failure the survey-post fallback yields the three
template posts truncated to the requested count — `min(count, 3)` posts,
so exactly 3 for `count = 5` — and each returned post interpolates the
idea preview, whose context excerpt is a prefix of the idea context of at
most 100 characters. -/
theorem survey_fallback_posts (ctx : String) (count : Int) (h : 0 ≤ count) :
    (_get_fallback_survey_posts ctx 5).length = 3 ∧
    (_get_fallback_survey_posts ctx count).length = min count.toNat 3 ∧
    (∀ p ∈ _get_fallback_survey_posts ctx count,
      List.IsInfix (idea_preview ctx).data p.text.data) ∧
    ∃ core tail, idea_preview ctx = core ++ tail ∧ core.length ≤ 100 ∧
      List.IsPrefix core.data ctx.data ∧ (tail = "..." ∨ tail = "") := by
  refine ⟨?_, ?_, ?_, ?_⟩
  · simp [_get_fallback_survey_posts, pyListSlice]
  · simp [_get_fallback_survey_posts, pyListSlice, h]
  · intro p hp
    have hp3 : p ∈ [(⟨"1", "What do you think about " ++ idea_preview ctx ++
          "? Would love your thoughts! 🚀"⟩ : SurveyPost),
        ⟨"2", "I\x27m exploring " ++ idea_preview ctx ++
          "... What\x27s your take? 💭"⟩,
        ⟨"3", "Quick poll: " ++ idea_preview ctx ++
          "... Thoughts? 🤔"⟩] := by
      have := List.take_subset count.toNat
        [(⟨"1", "What do you think about " ++ idea_preview ctx ++
            "? Would love your thoughts! 🚀"⟩ : SurveyPost),
         ⟨"2", "I\x27m exploring " ++ idea_preview ctx ++
            "... What\x27s your take? 💭"⟩,
         ⟨"3", "Quick poll: " ++ idea_preview ctx ++
            "... Thoughts? 🤔"⟩]
      apply this
      simpa [_get_fallback_survey_posts, pyListSlice, h] using hp
    simp only [List.mem_cons, List.not_mem_nil, or_false] at hp3
    rcases hp3 with h1 | h1 | h1
    · subst h1
      exact ⟨"What do you think about ".data,
        "? Would love your thoughts! 🚀".data, by simp [String.data_append]⟩
    · subst h1
      exact ⟨"I\x27m exploring ".data,
        "... What\x27s your take? 💭".data, by simp [String.data_append]⟩
    · subst h1
      exact ⟨"Quick poll: ".data,
        "... Thoughts? 🤔".data, by simp [String.data_append]⟩
  · by_cases hl : ctx.length > 100
    · refine ⟨pySlice ctx 100, "...", by simp [idea_preview, hl], ?_, ?_, Or.inl rfl⟩
      · simp only [pySlice, String.length_mk, List.length_take]
        omega
      · exact ⟨ctx.data.drop 100, List.take_append_drop 100 ctx.data⟩
    · refine ⟨ctx, "", by simp [idea_preview, hl], by omega, ?_, Or.inr rfl⟩
      exact ⟨[], by simp⟩

/-- Witness for `survey_fallback_posts` at `ctx = "hi"`, `count = 5`. -/
theorem survey_fallback_posts_witness :
    (0 : Int) ≤ 5 ∧ (_get_fallback_survey_posts "hi" 5).length = 3 :=
  ⟨by decide, (survey_fallback_posts "hi" 5 (by decide)).1⟩

/-- C9: the synthetic "I have an idea: ..." user turn appears in the
provider message sequence exactly when a (non-empty) idea context is
supplied and the conversation history is absent or empty; every non-empty
history suppresses the injection whatever context is supplied, and an
absent (or empty-string, hence falsy) context never injects. -/
theorem tiki_context_injection (text : String)
    (h : Option (List HistEntry)) (c : String) (l : List HistEntry) :
    (c ≠ "" →
      tikiTakaMessages text none (some c) =
        [⟨"system", tikiTakaSystemPrompt⟩,
         ⟨"user", "I have an idea: " ++ c⟩, ⟨"user", text⟩] ∧
      tikiTakaMessages text (some []) (some c) =
        [⟨"system", tikiTakaSystemPrompt⟩,
         ⟨"user", "I have an idea: " ++ c⟩, ⟨"user", text⟩]) ∧
    (l ≠ [] → ∀ ctx : Option String,
      tikiTakaMessages text (some l) ctx =
        ⟨"system", tikiTakaSystemPrompt⟩ ::
          (histMsgs (some l) ++ [⟨"user", text⟩])) ∧
    tikiTakaMessages text h none =
      ⟨"system", tikiTakaSystemPrompt⟩ :: (histMsgs h ++ [⟨"user", text⟩]) ∧
    tikiTakaMessages text h (some "") =
      ⟨"system", tikiTakaSystemPrompt⟩ :: (histMsgs h ++ [⟨"user", text⟩]) := by
  refine ⟨?_, ?_, ?_, ?_⟩
  · intro hc
    constructor <;>
      simp [tikiTakaMessages, pyTruthyOpt, pyTruthy, hc]
  · intro hl ctx
    simp [tikiTakaMessages, histMsgs, appendHistory_eq, hl]
  · cases h with
    | none => simp [tikiTakaMessages, pyTruthyOpt, histMsgs]
    | some l =>
        by_cases hl : l = []
        · subst hl
          simp [tikiTakaMessages, pyTruthyOpt, histMsgs]
        · simp [tikiTakaMessages, pyTruthyOpt, histMsgs, appendHistory_eq, hl]
  · cases h with
    | none => simp [tikiTakaMessages, pyTruthyOpt, pyTruthy, histMsgs]
    | some l =>
        by_cases hl : l = []
        · subst hl
          simp [tikiTakaMessages, pyTruthyOpt, pyTruthy, histMsgs]
        · simp [tikiTakaMessages, pyTruthyOpt, pyTruthy, histMsgs,
            appendHistory_eq, hl]

/-- Witness for `tiki_context_injection`: context `"pizza"` is injected
when the history is absent, and suppressed by a one-entry history. -/
theorem tiki_context_injection_witness :
    ("pizza" : String) ≠ "" ∧
    tikiTakaMessages "go" none (some "pizza") =
      [⟨"system", tikiTakaSystemPrompt⟩,
       ⟨"user", "I have an idea: " ++ "pizza"⟩, ⟨"user", "go"⟩] ∧
    ([HistEntry.nonDict] : List HistEntry) ≠ [] ∧
    tikiTakaMessages "go" (some [HistEntry.nonDict]) (some "pizza") =
      [⟨"system", tikiTakaSystemPrompt⟩, ⟨"user", "go"⟩] := by
  have h := tiki_context_injection "go" none "pizza" [HistEntry.nonDict]
  refine ⟨by decide, (h.1 (by decide)).1, by decide, ?_⟩
  have h2 := h.2.1 (by decide) (some "pizza")
  simpa [histMsgs, histMsgOf] using h2

/-- C10: the history loop is total over arbitrary entry shapes: its result
is exactly the defaulted translation of the dict entries — any non-dict
entry is silently omitted from the provider messages, a dict without a
`"role"` key contributes role `"user"`, and one without a `"content"` key
contributes content `""`. -/
theorem history_entries_duck_typed (text : String)
    (entries : List HistEntry) (r : Option String) (c : Option String) :
    tikiTakaMessages text (some (.nonDict :: entries)) none =
      tikiTakaMessages text (some entries) none ∧
    appendHistory [] entries =
      (entries.filter fun e => match e with
        | .dict _ _ => true
        | .nonDict => false).map
        (fun e => match e with
          | .dict role content => ⟨role.getD "user", content.getD ""⟩
          | .nonDict => ⟨"user", ""⟩) ∧
    tikiTakaMessages text (some [.dict none c]) none =
      [⟨"system", tikiTakaSystemPrompt⟩, ⟨"user", c.getD ""⟩,
       ⟨"user", text⟩] ∧
    tikiTakaMessages text (some [.dict r none]) none =
      [⟨"system", tikiTakaSystemPrompt⟩, ⟨r.getD "user", ""⟩,
       ⟨"user", text⟩] := by
  refine ⟨?_, ?_, ?_, ?_⟩
  · by_cases he : entries = []
    · subst he
      simp [tikiTakaMessages, pyTruthyOpt, appendHistory]
    · simp [tikiTakaMessages, pyTruthyOpt, appendHistory_eq, histMsgOf, he,
        appendHistory]
  · rw [appendHistory_eq]
    induction entries with
    | nil => simp
    | cons e rest ih =>
        cases e with
        | dict er ec => simpa [histMsgOf] using ih
        | nonDict => simpa [histMsgOf] using ih
  · simp [tikiTakaMessages, pyTruthyOpt, appendHistory]
  · simp [tikiTakaMessages, pyTruthyOpt, appendHistory]

end Postul
